import Mathlib

/-!
Verification of the blog application in `blogicum/blog/views.py`.

The data model (User, Category, Location, Post, Comment) follows the Django
models referenced by the views; fields carry the source names.  A `Store`
plays the role of the database.  Each view's queryset / object resolution /
dispatch logic is translated into a pure function over the store:

  * `PostListView.get_queryset`      → `postListQueryset` / `postList`
  * `PostDetailView.get_object`      → `postDetail`
  * `CommentCreateView.form_valid`   → `commentCreateHandler`
  * `AuthorPostMixin.dispatch` + `PostEditView`/`PostDeleteView`
                                     → `postEditHandler` / `postDeleteHandler`
  * `AuthorCommentMixin.dispatch` + `CommentEditView`/`CommentDeleteView`
                                     → `commentEditHandler` / `commentDeleteHandler`
  * `CategoryPostsListView`          → `categoryPosts`
  * `UserDetailView.get_queryset`    → `userPosts`

`get_object_or_404` failure and an explicit `Http404` are both modelled as
`Option.none` / `Response.notFound` (the framework turns both into the same
404 response).  The current identity `request.user` is an `Option Nat`
(user primary key), `none` standing for `AnonymousUser`; timestamps are
naturals and `timezone.now()` is an explicit `now` argument.
-/

namespace Blog

/-- `django.contrib.auth` User: identity with username and profile fields. -/
structure User where
  id : Nat
  username : String
  email : String
  first_name : String
  last_name : String
deriving DecidableEq

/-- `blog.models.Category`: sluggable grouping with a published flag. -/
structure Category where
  id : Nat
  slug : String
  is_published : Bool
deriving DecidableEq

/-- `blog.models.Location`: venue tag with a published flag. -/
structure Location where
  id : Nat
  is_published : Bool
deriving DecidableEq

/-- `blog.models.Post`: title/text, publish timestamp `pub_date`, published
flag, and foreign keys (stored as primary keys) to author, location and
category. -/
structure Post where
  id : Nat
  title : String
  text : String
  pub_date : Nat
  author : Nat
  location : Nat
  category : Nat
  is_published : Bool
deriving DecidableEq

/-- `blog.models.Comment`: text plus foreign keys to its post and author. -/
structure Comment where
  id : Nat
  text : String
  post : Nat
  author : Nat
deriving DecidableEq

/-- The database tables the views read and write. -/
structure Store where
  users : List User
  categories : List Category
  locations : List Location
  posts : List Post
  comments : List Comment
deriving DecidableEq

/-- `get_object_or_404(Post, pk=...)` as a partial lookup. -/
def findPost (s : Store) (pk : Nat) : Option Post :=
  s.posts.find? (fun p => p.id == pk)

/-- `get_object_or_404(Comment, pk=...)` as a partial lookup. -/
def findComment (s : Store) (pk : Nat) : Option Comment :=
  s.comments.find? (fun c => c.id == pk)

/-- `get_object_or_404(User, username=...)` as a partial lookup. -/
def findUser (s : Store) (username : String) : Option User :=
  s.users.find? (fun u => u.username == username)

/-- The join `category__is_published` on a post (false when the foreign key
dangles, matching the SQL inner join dropping the row). -/
def categoryPublished (s : Store) (p : Post) : Bool :=
  match s.categories.find? (fun c => c.id == p.category) with
  | some c => c.is_published
  | none => false

/-- The join `location__is_published` on a post. -/
def locationPublished (s : Store) (p : Post) : Bool :=
  match s.locations.find? (fun l => l.id == p.location) with
  | some l => l.is_published
  | none => false

/-- `annotate(comment_count=Count('comments'))` for a single post: the number
of stored comments whose `post` foreign key is this post. -/
def commentCount (s : Store) (p : Post) : Nat :=
  (s.comments.filter (fun c => c.post == p.id)).length

/-- The filter of `PostListView.get_queryset` (views.py lines 26–29):
`is_published=True, category__is_published=True, location__is_published=True,
pub_date__lte=timezone.now()`. -/
def publiclyVisible (s : Store) (now : Nat) (p : Post) : Bool :=
  p.is_published && categoryPublished s p && locationPublished s p
    && decide (p.pub_date ≤ now)

/-- The ordering `order_by('-pub_date')`: descending publish time. -/
def pubDateDesc (a b : Post) : Prop := b.pub_date ≤ a.pub_date

instance : DecidableRel pubDateDesc :=
  fun a b => inferInstanceAs (Decidable (b.pub_date ≤ a.pub_date))

instance : IsTotal Post pubDateDesc := ⟨fun a b => Nat.le_total b.pub_date a.pub_date⟩

instance : IsTrans Post pubDateDesc := ⟨fun _ _ _ h1 h2 => Nat.le_trans h2 h1⟩

/-- `order_by('-pub_date')` applied to a row list. -/
def orderByPubDateDesc (l : List Post) : List Post :=
  List.insertionSort pubDateDesc l

/-- `annotate(comment_count=Count('comments'))` applied to a row list:
each post paired with its derived comment count. -/
def annotateCommentCount (s : Store) (l : List Post) : List (Post × Nat) :=
  l.map (fun p => (p, commentCount s p))

/-- `PostListView.get_queryset` (views.py lines 25–29) before annotation:
filter by the four visibility conditions, order by `-pub_date`. -/
def postListQueryset (s : Store) (now : Nat) : List Post :=
  orderByPubDateDesc (s.posts.filter (fun p => publiclyVisible s now p))

/-- `PostListView.get_queryset` with the `comment_count` annotation. -/
def postList (s : Store) (now : Nat) : List (Post × Nat) :=
  annotateCommentCount s (postListQueryset s now)

/-- `PostDetailView.get_object` (views.py lines 36–43): resolve by
`kwargs['post_id']` (404 when absent); return the post when the viewer is the
author or all three published flags hold, otherwise raise `Http404`.  Note the
condition does not consult `pub_date`. -/
def postDetail (s : Store) (viewer : Option Nat) (post_id : Nat) : Option Post :=
  match findPost s post_id with
  | none => none
  | some post =>
    if viewer == some post.author
        || (post.is_published && categoryPublished s post && locationPublished s post) then
      some post
    else
      none

/-- The HTTP outcomes the mutation handlers produce.  `notFound` covers both
`get_object_or_404` failure and `Http404`; `loginRedirect` is
`LoginRequiredMixin.handle_no_permission`; `postDetailRedirect pk` is
`redirect(reverse('blog:post_detail', kwargs=\x7b'post_id': pk\x7d))`;
`profileRedirect username` is the redirect to `blog:profile`. -/
inductive Response where
  | notFound : Response
  | loginRedirect : Response
  | postDetailRedirect : Nat → Response
  | profileRedirect : String → Response
deriving DecidableEq

/-- `self.object.author.username` for the post-delete success URL. -/
def usernameOf (s : Store) (uid : Nat) : String :=
  match s.users.find? (fun u => u.id == uid) with
  | some u => u.username
  | none => ""

/-- `CommentCreateView` (views.py lines 130–143) on a valid POST.  The MRO
runs `LoginRequiredMixin.dispatch` first (unauthenticated → login redirect);
`form_valid` then resolves the route's `post_id` with `get_object_or_404` and
overwrites `form.instance.post` and `form.instance.author` before the save;
the saved row gets a fresh primary key.  `inst` is the form's unsaved
instance, carrying whatever the client submitted. -/
def commentCreateHandler (s : Store) (viewer : Option Nat) (post_id : Nat)
    (inst : Comment) : Response × Store :=
  match viewer with
  | none => (.loginRedirect, s)
  | some u =>
    match findPost s post_id with
    | none => (.notFound, s)
    | some _ =>
      let fresh := (s.comments.map (fun c => c.id)).foldr max 0 + 1
      let c : Comment := { inst with id := fresh, post := post_id, author := u }
      (.postDetailRedirect post_id, { s with comments := s.comments ++ [c] })

/-- `PostEditView` = `AuthorPostMixin` + `UpdateView` (views.py lines 66–84)
on a valid POST.  `AuthorPostMixin.dispatch` is the first `dispatch` in the
MRO: it resolves the post (404 when absent), redirects a non-author to the
post's detail page, and only then delegates to `LoginRequiredMixin.dispatch`
(unauthenticated check) and the generic update, which writes the form's
fields and redirects to the post's detail page. -/
def postEditHandler (s : Store) (viewer : Option Nat) (post_id : Nat)
    (newTitle newText : String) : Response × Store :=
  match findPost s post_id with
  | none => (.notFound, s)
  | some post =>
    if viewer != some post.author then
      (.postDetailRedirect post.id, s)
    else
      match viewer with
      | none => (.loginRedirect, s)
      | some _ =>
        (.postDetailRedirect post.id,
         { s with posts := s.posts.map (fun q =>
             if q.id == post.id then { q with title := newTitle, text := newText } else q) })

/-- `PostDeleteView` = `AuthorPostMixin` + `DeleteView` (views.py lines
66–72, 87–97) on POST: same dispatch order as the edit view; on success the
row is deleted and the response redirects to the author's profile. -/
def postDeleteHandler (s : Store) (viewer : Option Nat) (post_id : Nat) :
    Response × Store :=
  match findPost s post_id with
  | none => (.notFound, s)
  | some post =>
    if viewer != some post.author then
      (.postDetailRedirect post.id, s)
    else
      match viewer with
      | none => (.loginRedirect, s)
      | some _ =>
        (.profileRedirect (usernameOf s post.author),
         { s with posts := s.posts.filter (fun q => q.id != post.id) })

/-- `CommentEditView` = `AuthorCommentMixin` + `UpdateView` (views.py lines
146–170) on a valid POST.  `AuthorCommentMixin.dispatch` runs first: its
`get_object` resolves `kwargs['comment_id']` alone (the route's `post_id` is
not consulted); a non-author is redirected to the detail page of the
comment's stored post (`comment.post.pk`); then the login check and the
generic update run, and the success redirect uses the route's `post_id`. -/
def commentEditHandler (s : Store) (viewer : Option Nat) (route_post_id comment_id : Nat)
    (newText : String) : Response × Store :=
  match findComment s comment_id with
  | none => (.notFound, s)
  | some c =>
    if viewer != some c.author then
      (.postDetailRedirect c.post, s)
    else
      match viewer with
      | none => (.loginRedirect, s)
      | some _ =>
        (.postDetailRedirect route_post_id,
         { s with comments := s.comments.map (fun k =>
             if k.id == c.id then { k with text := newText } else k) })

/-- `CommentDeleteView` = `AuthorCommentMixin` + `DeleteView` (views.py lines
146–152, 173–188) on POST.  Its `get_object` is
`get_object_or_404(Comment, pk=comment_id, post_id=post_id)`: the stored
`post` must equal the route's `post_id` or the request 404s; then the
ownership redirect, login check, deletion, and redirect to the route's post
detail page. -/
def commentDeleteHandler (s : Store) (viewer : Option Nat) (route_post_id comment_id : Nat) :
    Response × Store :=
  match s.comments.find? (fun k => k.id == comment_id && k.post == route_post_id) with
  | none => (.notFound, s)
  | some c =>
    if viewer != some c.author then
      (.postDetailRedirect c.post, s)
    else
      match viewer with
      | none => (.loginRedirect, s)
      | some _ =>
        (.postDetailRedirect route_post_id,
         { s with comments := s.comments.filter (fun k => k.id != c.id) })

/-- `CategoryPostsListView` (views.py lines 100–122): `get_category` is
`get_object_or_404(Category, slug=..., is_published=True)`; the queryset is
the category's posts filtered by `is_published=True`,
`pub_date__lte=timezone.now()` and `category__is_published=True` (no
location condition), ordered by `-pub_date` and comment-count annotated. -/
def categoryPosts (s : Store) (now : Nat) (category_slug : String) :
    Option (List (Post × Nat)) :=
  match s.categories.find? (fun c => c.slug == category_slug && c.is_published) with
  | none => none
  | some cat =>
    some (annotateCommentCount s (orderByPubDateDesc
      ((s.posts.filter (fun p => p.category == cat.id)).filter (fun p =>
        p.is_published && decide (p.pub_date ≤ now) && categoryPublished s p))))

/-- `UserDetailView.get_queryset` (views.py lines 196–206): resolve the user
by the route's `username` (404 when absent); take that author's posts with
the comment-count annotation, ordered by `-pub_date`; when the viewer is not
the profile owner, additionally filter `pub_date__lte=timezone.now()` (no
published-flag conditions).  Queryset chaining is declarative, so the
annotation and ordering are applied after the final filter here. -/
def userPosts (s : Store) (now : Nat) (viewer : Option Nat) (username : String) :
    Option (List (Post × Nat)) :=
  match findUser s username with
  | none => none
  | some author =>
    let base := s.posts.filter (fun p => p.author == author.id)
    let rows := if viewer != some author.id
      then base.filter (fun p => decide (p.pub_date ≤ now))
      else base
    some (annotateCommentCount s (orderByPubDateDesc rows))

/-! ### Concrete fixtures used by witnesses and counterexamples -/

/-- Fixture user `alice` (pk 10). -/
def wU10 : User := { id := 10, username := "alice", email := "a@x", first_name := "A", last_name := "L" }

/-- Fixture user `bob` (pk 20). -/
def wU20 : User := { id := 20, username := "bob", email := "b@x", first_name := "B", last_name := "M" }

/-- Fixture published category (pk 1, slug `news`). -/
def wC1 : Category := { id := 1, slug := "news", is_published := true }

/-- Fixture unpublished category (pk 2, slug `drafts`). -/
def wC2 : Category := { id := 2, slug := "drafts", is_published := false }

/-- Fixture published location (pk 1). -/
def wL1 : Location := { id := 1, is_published := true }

/-- Fixture unpublished location (pk 2). -/
def wL2 : Location := { id := 2, is_published := false }

/-- Fixture post 1: fully visible at time 10 (all flags set, `pub_date` 5). -/
def wP1 : Post :=
  { id := 1, title := "t1", text := "x1", pub_date := 5, author := 10,
    location := 1, category := 1, is_published := true }

/-- Fixture post 2: future-dated at time 10 (`pub_date` 20), all flags set. -/
def wP2 : Post :=
  { id := 2, title := "t2", text := "x2", pub_date := 20, author := 10,
    location := 1, category := 1, is_published := true }

/-- Fixture post 3: unpublished draft of user 20. -/
def wP3 : Post :=
  { id := 3, title := "t3", text := "x3", pub_date := 3, author := 20,
    location := 1, category := 1, is_published := false }

/-- Fixture post 4: published, past-due, but in the unpublished location 2. -/
def wP4 : Post :=
  { id := 4, title := "t4", text := "x4", pub_date := 4, author := 20,
    location := 2, category := 1, is_published := true }

/-- Fixture post 5: published, past-due, but in the unpublished category 2. -/
def wP5 : Post :=
  { id := 5, title := "t5", text := "x5", pub_date := 2, author := 10,
    location := 1, category := 2, is_published := true }

/-- Fixture comment 1 on post 1 by user 20. -/
def wK1 : Comment := { id := 1, text := "c1", post := 1, author := 20 }

/-- Fixture comment 2 on post 1 by user 10. -/
def wK2 : Comment := { id := 2, text := "c2", post := 1, author := 10 }

/-- Fixture comment 3 on post 2 by user 20. -/
def wK3 : Comment := { id := 3, text := "c3", post := 2, author := 20 }

/-- Fixture database holding the entities above. -/
def wS : Store :=
  { users := [wU10, wU20], categories := [wC1, wC2], locations := [wL1, wL2],
    posts := [wP1, wP2, wP3, wP4, wP5], comments := [wK1, wK2, wK3] }

/-- A client-submitted comment form instance (spoofed `post`/`author`). -/
def wInst : Comment := { id := 0, text := "hi", post := 77, author := 88 }

/-! ### Theorems -/

/-- C1: a post appears in the public listing at `/` iff it is published, its
category and location are published, and its publish time is not in the
future; the listing is in descending publish-time order, and every listed
entry carries the count of the post's stored comments. -/
theorem C1_public_listing (s : Store) (now : Nat) (p : Post) :
    (p ∈ postListQueryset s now ↔ p ∈ s.posts ∧ publiclyVisible s now p = true)
    ∧ List.Sorted pubDateDesc (postListQueryset s now)
    ∧ ∀ q : Post × Nat, q ∈ postList s now → q.2 = commentCount s q.1 := by
  refine ⟨?_, ?_, ?_⟩
  · rw [postListQueryset, orderByPubDateDesc, List.mem_insertionSort, List.mem_filter]
  · exact List.sorted_insertionSort pubDateDesc _
  · intro q hq
    rw [postList, annotateCommentCount] at hq
    obtain ⟨p', _, rfl⟩ := List.mem_map.mp hq
    rfl

/-- Witness for C1 at the fixture store: post 1 is listed exactly when
visible at time 10, the listing is sorted, and its entry for post 1 carries
comment count 2. -/
theorem C1_public_listing_witness :
    (wP1 ∈ postListQueryset wS 10 ↔ wP1 ∈ wS.posts ∧ publiclyVisible wS 10 wP1 = true)
    ∧ List.Sorted pubDateDesc (postListQueryset wS 10)
    ∧ (wP1, 2).2 = commentCount wS (wP1, 2).1 :=
  ⟨(C1_public_listing wS 10 wP1).1, (C1_public_listing wS 10 wP1).2.1,
   (C1_public_listing wS 10 wP1).2.2 (wP1, 2) (by decide)⟩

/-- C2 counterexample: post 2 is future-dated at time 10 (its claimed
visibility predicate is false) and viewer 20 is not its author, yet the
detail view returns the post rather than not-found — `PostDetailView` never
consults `pub_date`. -/
theorem C2_counterexample :
    publiclyVisible wS 10 wP2 = false
    ∧ wP2.author ≠ 20
    ∧ findPost wS 2 = some wP2
    ∧ postDetail wS (some 20) 2 = some wP2 := by decide

/-- C2 (amended): the detail view returns not-found when the identifier does
not resolve; for a resolved post and a non-author viewer it returns
not-found exactly when the three published flags do not all hold — the
publish time is not part of the check.  Both failures are the same
`Option.none` signal. -/
theorem C2_detail_visibility (s : Store) (viewer : Option Nat) (pid : Nat) :
    (findPost s pid = none → postDetail s viewer pid = none)
    ∧ (∀ p, findPost s pid = some p → viewer ≠ some p.author →
        (postDetail s viewer pid = none
          ↔ (p.is_published && categoryPublished s p && locationPublished s p) = false)) := by
  constructor
  · intro h
    simp [postDetail, h]
  · intro p hp hne
    have hb : (viewer == some p.author) = false := by
      simpa using hne
    rw [postDetail, hp]
    cases hflags : p.is_published && categoryPublished s p && locationPublished s p <;>
      simp [hb, hflags]

/-- Witness for C2 (amended) at the fixture store: post 3 is an unpublished
draft, so the detail view hides it from non-author viewer 10. -/
theorem C2_detail_visibility_witness : postDetail wS (some 10) 3 = none :=
  ((C2_detail_visibility wS (some 10) 3).2 wP3 (by decide) (by decide)).mpr (by decide)

/-- C3: the comment created by the comment-creation endpoint has its author
set to the current identity and its post set to the route's post identifier.
The result does not depend on any author/post values carried by the
client-submitted form instance, and the stored row's `author` and `post` are
exactly the identity and the route parameter. -/
theorem C3_comment_binding (s : Store) (viewer : Option Nat) (pid : Nat)
    (inst : Comment) (a1 q1 a2 q2 : Nat) :
    commentCreateHandler s viewer pid { inst with author := a1, post := q1 }
      = commentCreateHandler s viewer pid { inst with author := a2, post := q2 }
    ∧ (∀ u post, viewer = some u → findPost s pid = some post →
        (commentCreateHandler s viewer pid inst).2.comments
          = s.comments ++
            [{ inst with
                id := (s.comments.map (fun c => c.id)).foldr max 0 + 1,
                post := pid,
                author := u }]) := by
  constructor
  · cases viewer with
    | none => rfl
    | some u =>
      rw [commentCreateHandler, commentCreateHandler]
  · intro u post hu hp
    subst hu
    rw [commentCreateHandler, hp]

/-- Witness for C3 at the fixture store: two spoofed instances create the
same state, and the stored comment carries author 20 and post 1. -/
theorem C3_comment_binding_witness :
    commentCreateHandler wS (some 20) 1 { wInst with author := 5, post := 6 }
      = commentCreateHandler wS (some 20) 1 { wInst with author := 7, post := 8 }
    ∧ (commentCreateHandler wS (some 20) 1 wInst).2.comments
      = wS.comments ++ [{ wInst with id := 4, post := 1, author := 20 }] :=
  ⟨(C3_comment_binding wS (some 20) 1 wInst 5 6 7 8).1,
   (C3_comment_binding wS (some 20) 1 wInst 5 6 7 8).2 20 wP1 rfl (by decide)⟩

/-- If the first element of `l` satisfying `p` is `c`, and `q` is a condition
implying `p` that `c` satisfies, then `c` is also the first element
satisfying `q`. -/
theorem find?_strengthen {α : Type} {l : List α} {p q : α → Bool} {c : α}
    (h : l.find? p = some c) (hq : q c = true)
    (himp : ∀ x, q x = true → p x = true) : l.find? q = some c := by
  induction l with
  | nil => simp at h
  | cons a t ih =>
    by_cases hqa : q a = true
    · have hpa : p a = true := himp a hqa
      rw [List.find?_cons_of_pos _ hpa] at h
      rw [List.find?_cons_of_pos _ hqa]
      exact h
    · rw [List.find?_cons_of_neg _ hqa]
      by_cases hpa : p a = true
      · rw [List.find?_cons_of_pos _ hpa] at h
        cases h
        exact absurd hq hqa
      · rw [List.find?_cons_of_neg _ hpa] at h
        exact ih h

/-- C4: for an authenticated identity that is not the entity's author, the
post-edit, post-delete, comment-edit and comment-delete handlers leave the
store unchanged and respond with a redirect to the entity's detail page (for
a comment, its post's detail page); none of them produces an authorization
error.  The comment handlers are invoked on the comment's canonical route
(`route_post_id` = the stored post). -/
theorem C4_nonowner_mutation (s : Store) (u : Nat) (post_id comment_id : Nat)
    (p : Post) (c : Comment) (newTitle newText ct : String)
    (hp : findPost s post_id = some p) (hpa : p.author ≠ u)
    (hc : findComment s comment_id = some c) (hca : c.author ≠ u) :
    postEditHandler s (some u) post_id newTitle newText
      = (.postDetailRedirect p.id, s)
    ∧ postDeleteHandler s (some u) post_id = (.postDetailRedirect p.id, s)
    ∧ commentEditHandler s (some u) c.post comment_id ct
      = (.postDetailRedirect c.post, s)
    ∧ commentDeleteHandler s (some u) c.post comment_id
      = (.postDetailRedirect c.post, s) := by
  have hbp : (some u != some p.author) = true := by
    simpa using fun h => hpa h.symm
  have hbc : (some u != some c.author) = true := by
    simpa using fun h => hca h.symm
  have hid : c.id = comment_id := by
    simpa using List.find?_some hc
  have hc' : s.comments.find? (fun k => k.id == comment_id) = some c := hc
  have hfind : s.comments.find? (fun k => k.id == comment_id && k.post == c.post)
      = some c :=
    find?_strengthen hc' (by simp [hid]) (fun x hx => by
      simp only [Bool.and_eq_true] at hx
      exact hx.1)
  refine ⟨?_, ?_, ?_, ?_⟩
  · simp only [postEditHandler, hp, hbp, if_true]
  · simp only [postDeleteHandler, hp, hbp, if_true]
  · simp only [commentEditHandler, hc, hbc, if_true]
  · simp only [commentDeleteHandler, hfind, hbc, if_true]

/-- Witness for C4 at the fixture store: user 20 is not the author of post 1
nor of comment 2; all four handlers redirect and leave the store intact. -/
theorem C4_nonowner_mutation_witness :
    postEditHandler wS (some 20) 1 "a" "b" = (.postDetailRedirect 1, wS)
    ∧ postDeleteHandler wS (some 20) 1 = (.postDetailRedirect 1, wS)
    ∧ commentEditHandler wS (some 20) 1 2 "c" = (.postDetailRedirect 1, wS)
    ∧ commentDeleteHandler wS (some 20) 1 2 = (.postDetailRedirect 1, wS) :=
  C4_nonowner_mutation wS 20 1 2 wP1 wK2 "a" "b" "c"
    (by decide) (by decide) (by decide) (by decide)

/-- C5 counterexample: comment 1 belongs to post 1, yet the comment-edit
endpoint invoked through route post 99 neither 404s nor leaves the store
unchanged — `CommentEditView.get_object` resolves by `comment_id` alone, so
the route/stored match is not required for edit. -/
theorem C5_counterexample :
    wK1.post ≠ 99
    ∧ (commentEditHandler wS (some 20) 99 1 "zz").1 ≠ Response.notFound
    ∧ (commentEditHandler wS (some 20) 99 1 "zz").2 ≠ wS := by decide

/-- C5 (amended): when the route's post identifier differs from the
comment's stored post, comment delete fails with not-found and performs no
mutation; comment edit, however, resolves the comment by `comment_id` alone
and does not 404 on the mismatch. -/
theorem C5_route_match (s : Store) (viewer : Option Nat)
    (route_post_id comment_id : Nat) (c : Comment) (t : String)
    (hnodup : (s.comments.map (fun k => k.id)).Nodup)
    (hc : findComment s comment_id = some c) (hne : c.post ≠ route_post_id) :
    commentDeleteHandler s viewer route_post_id comment_id = (.notFound, s)
    ∧ (commentEditHandler s viewer route_post_id comment_id t).1
        ≠ Response.notFound := by
  have hc' : s.comments.find? (fun k => k.id == comment_id) = some c := hc
  have hcm : c ∈ s.comments := List.mem_of_find?_eq_some hc'
  have hcid : c.id = comment_id := by simpa using List.find?_some hc'
  have hfind : s.comments.find?
      (fun k => k.id == comment_id && k.post == route_post_id) = none := by
    rw [List.find?_eq_none]
    intro x hx hpx
    simp only [Bool.and_eq_true, beq_iff_eq] at hpx
    have hxc : x = c := by
      apply List.inj_on_of_nodup_map hnodup hx hcm
      simp [hpx.1, hcid]
    exact hne (hxc ▸ hpx.2)
  constructor
  · simp only [commentDeleteHandler, hfind]
  · simp only [commentEditHandler, hc]
    split
    · exact fun h => Response.noConfusion h
    · cases viewer with
      | none => exact fun h => Response.noConfusion h
      | some u => exact fun h => Response.noConfusion h

/-- Witness for C5 (amended) at the fixture store: comment 3 is stored on
post 2; through route post 1 its deletion 404s without mutation while its
edit does not 404. -/
theorem C5_route_match_witness :
    commentDeleteHandler wS (some 20) 1 3 = (Response.notFound, wS)
    ∧ (commentEditHandler wS (some 20) 1 3 "q").1 ≠ Response.notFound :=
  C5_route_match wS (some 20) 1 3 wK3 "q" (by decide) (by decide) (by decide)

/-- C6 counterexample: post 3 is a stored draft of user 20, yet the public
listing omits it — `PostListView.get_queryset` applies the published-flag
filters with no author override, so the listing shown to the author (the
listing takes no viewer at all) excludes the author's own draft. -/
theorem C6_counterexample :
    wP3.author = 20 ∧ wP3 ∈ wS.posts ∧ wP3 ∉ postListQueryset wS 10 := by decide

/-- C6 (amended): the author always reaches their own post's detail page
regardless of the published flags and publish time, but the listing at `/`
is filtered by the full visibility predicate for every viewer, the author
included — membership in it implies the predicate. -/
theorem C6_author_detail_access (s : Store) (now : Nat) (pid : Nat) (p : Post)
    (hp : findPost s pid = some p) :
    postDetail s (some p.author) pid = some p
    ∧ (p ∈ postListQueryset s now → publiclyVisible s now p = true) := by
  constructor
  · simp [postDetail, hp]
  · intro hmem
    rw [postListQueryset, orderByPubDateDesc, List.mem_insertionSort,
      List.mem_filter] at hmem
    exact hmem.2

/-- Witness for C6 (amended): author 10 reaches the detail page of their
future-dated post 2, and listed post 1 indeed satisfies the predicate. -/
theorem C6_author_detail_access_witness :
    postDetail wS (some wP2.author) 2 = some wP2
    ∧ publiclyVisible wS 10 wP1 = true :=
  ⟨(C6_author_detail_access wS 10 2 wP2 (by decide)).1,
   (C6_author_detail_access wS 10 1 wP1 (by decide)).2 (by decide)⟩

/-- C7 counterexample: post 4 sits in the published category `news` but in
the unpublished location 2, so the claimed full visibility predicate is
false for it; the category listing still contains it —
`CategoryPostsListView.get_queryset` has no `location__is_published`
condition. -/
theorem C7_counterexample :
    locationPublished wS wP4 = false
    ∧ publiclyVisible wS 10 wP4 = false
    ∧ categoryPosts wS 10 "news" = some [(wP1, 2), (wP4, 0)] := by decide

/-- C7 (amended): the category listing 404s exactly when no stored category
both matches the slug and is published; otherwise it returns the category's
posts filtered by the post's published flag, publish time not in the future
and the published flag of the post's category — with no location condition —
comment-count annotated and in descending publish-time order. -/
theorem C7_category_listing (s : Store) (now : Nat) (slug : String) :
    (categoryPosts s now slug = none ↔
      ∀ cat ∈ s.categories, cat.slug = slug → cat.is_published = false)
    ∧ (∀ cat, s.categories.find? (fun c => c.slug == slug && c.is_published)
          = some cat →
        ∃ rows, categoryPosts s now slug = some (annotateCommentCount s rows)
          ∧ (∀ p, p ∈ rows ↔ p ∈ s.posts ∧ p.category = cat.id
              ∧ p.is_published = true ∧ p.pub_date ≤ now
              ∧ categoryPublished s p = true)
          ∧ List.Sorted pubDateDesc rows) := by
  cases hfind : s.categories.find? (fun c => c.slug == slug && c.is_published) with
  | none =>
    have hnone : categoryPosts s now slug = none := by
      simp [categoryPosts, hfind]
    constructor
    · rw [hnone]
      simp only [true_iff]
      intro cat hmem hslug
      have h2 := List.find?_eq_none.mp hfind cat hmem
      cases hbp : cat.is_published with
      | false => rfl
      | true => exact absurd (by simp [hslug, hbp]) h2
    · intro cat hcat
      exact Option.noConfusion hcat
  | some cat0 =>
    have hmem0 : cat0 ∈ s.categories := List.mem_of_find?_eq_some hfind
    have hsat : cat0.slug = slug ∧ cat0.is_published = true := by
      have := List.find?_some hfind
      simpa [Bool.and_eq_true] using this
    constructor
    · constructor
      · intro h
        rw [categoryPosts, hfind] at h
        exact Option.noConfusion h
      · intro h
        exact absurd (h cat0 hmem0 hsat.1) (by simp [hsat.2])
    · intro cat hcat
      injection hcat with hcat0
      subst hcat0
      refine ⟨orderByPubDateDesc ((s.posts.filter (fun p => p.category == cat0.id)).filter
        (fun p => p.is_published && decide (p.pub_date ≤ now) && categoryPublished s p)),
        by rw [categoryPosts, hfind], ?_, List.sorted_insertionSort _ _⟩
      intro p
      rw [orderByPubDateDesc, List.mem_insertionSort, List.mem_filter, List.mem_filter]
      simp only [Bool.and_eq_true, beq_iff_eq, decide_eq_true_eq]
      tauto

/-- Witness for C7 (amended): the listing for slug `news` in the fixture
store satisfies the amended description for category 1. -/
theorem C7_category_listing_witness :
    ∃ rows, categoryPosts wS 10 "news" = some (annotateCommentCount wS rows)
      ∧ (∀ p, p ∈ rows ↔ p ∈ wS.posts ∧ p.category = wC1.id
          ∧ p.is_published = true ∧ p.pub_date ≤ 10
          ∧ categoryPublished wS p = true)
      ∧ List.Sorted pubDateDesc rows :=
  (C7_category_listing wS 10 "news").2 wC1 (by decide)

/-- C8: the profile listing for a resolved user returns, for a viewer other
than the owner, exactly the owner's posts with publish time not in the
future — no published-flag condition on the post, its category or its
location — and for the owner all of their posts; in both cases
comment-count annotated and in descending publish-time order. -/
theorem C8_profile_listing (s : Store) (now : Nat) (viewer : Option Nat)
    (username : String) (author : User)
    (h : findUser s username = some author) :
    ∃ rows, userPosts s now viewer username = some (annotateCommentCount s rows)
      ∧ List.Sorted pubDateDesc rows
      ∧ (viewer ≠ some author.id →
          ∀ p, p ∈ rows ↔ p ∈ s.posts ∧ p.author = author.id ∧ p.pub_date ≤ now)
      ∧ (viewer = some author.id →
          ∀ p, p ∈ rows ↔ p ∈ s.posts ∧ p.author = author.id)
      ∧ (∀ q : Post × Nat, q ∈ annotateCommentCount s rows →
          q.2 = commentCount s q.1) := by
  refine ⟨orderByPubDateDesc (if viewer != some author.id
      then (s.posts.filter (fun p => p.author == author.id)).filter
        (fun p => decide (p.pub_date ≤ now))
      else s.posts.filter (fun p => p.author == author.id)),
    by simp only [userPosts, h], List.sorted_insertionSort _ _, ?_, ?_, ?_⟩
  · intro hv p
    have hbv : (viewer != some author.id) = true := by
      simpa using hv
    rw [hbv, if_pos rfl, orderByPubDateDesc, List.mem_insertionSort,
      List.mem_filter, List.mem_filter]
    simp only [beq_iff_eq, decide_eq_true_eq, and_assoc]
  · intro hv p
    have hbv : (viewer != some author.id) = false := by
      simp [hv]
    rw [hbv]
    simp only [Bool.false_eq_true, if_false, orderByPubDateDesc,
      List.mem_insertionSort, List.mem_filter, beq_iff_eq]
  · intro q hq
    obtain ⟨p', _, rfl⟩ := List.mem_map.mp hq
    rfl

/-- Witness for C8 at the fixture store: the profile of `alice` (pk 10)
viewed by user 20 satisfies the stated description. -/
theorem C8_profile_listing_witness :
    ∃ rows, userPosts wS 10 (some 20) "alice" = some (annotateCommentCount wS rows)
      ∧ List.Sorted pubDateDesc rows
      ∧ (some 20 ≠ some wU10.id →
          ∀ p, p ∈ rows ↔ p ∈ wS.posts ∧ p.author = wU10.id ∧ p.pub_date ≤ 10)
      ∧ (some 20 = some wU10.id →
          ∀ p, p ∈ rows ↔ p ∈ wS.posts ∧ p.author = wU10.id)
      ∧ (∀ q : Post × Nat, q ∈ annotateCommentCount wS rows →
          q.2 = commentCount wS q.1) :=
  C8_profile_listing wS 10 (some 20) "alice" wU10 (by decide)

/-- C9 evaluated at the failing input: in the fixture store an
unauthenticated request to post 1's edit and delete endpoints and to comment
1's edit and delete endpoints is answered with a redirect to the post's
detail page — not with a login redirect — because the ownership check in
`AuthorPostMixin.dispatch` / `AuthorCommentMixin.dispatch` runs before the
inherited `LoginRequiredMixin` authentication check and an anonymous user
never equals the author; the store is left unchanged. -/
theorem C9_unauthenticated_eval :
    postEditHandler wS none 1 "a" "b" = (Response.postDetailRedirect 1, wS)
    ∧ postDeleteHandler wS none 1 = (Response.postDetailRedirect 1, wS)
    ∧ commentEditHandler wS none 1 1 "x" = (Response.postDetailRedirect 1, wS)
    ∧ commentDeleteHandler wS none 1 1 = (Response.postDetailRedirect 1, wS) := by
  decide

/-- C10: comment edit resolves its target by `comment_id` alone — the route's
post identifier plays no part in the resolution — and for a non-owner the
redirect targets the detail page of the comment's stored post, whatever post
the route names. -/
theorem C10_comment_edit_route_independence (s : Store) (u : Nat)
    (route_post_id comment_id : Nat) (c : Comment) (t : String)
    (hc : findComment s comment_id = some c) (hne : c.author ≠ u) :
    commentEditHandler s (some u) route_post_id comment_id t
      = (Response.postDetailRedirect c.post, s) := by
  have hb : (some u != some c.author) = true := by
    simpa using fun h => hne h.symm
  simp only [commentEditHandler, hc, hb, if_true]

/-- Witness for C10: non-owner 10 requests comment 1's edit through route
post 99; the redirect targets the stored post 1, not 99. -/
theorem C10_comment_edit_route_independence_witness :
    (99 : Nat) ≠ wK1.post
    ∧ commentEditHandler wS (some 10) 99 1 "x"
        = (Response.postDetailRedirect wK1.post, wS) :=
  ⟨by decide,
   C10_comment_edit_route_independence wS 10 99 1 wK1 "x" (by decide) (by decide)⟩

end Blog
